import Mathlib

/-!
Verification of the SwimLanes sample-data validator
(`sample-data/validate-samples.py`) against its specification.

The Python source is shallowly embedded:
* `validate_date` models the Date Recognizer, including the exact semantics
  of CPython `datetime.strptime` for the five entries of `DATE_FORMATS`
  (each `%`-directive is compiled to the regex alternation used by
  CPython `_strptime`, the whole trimmed string must be consumed, and the
  parsed numbers must form a valid proleptic-Gregorian calendar date);
  the invalid directive `%-m/%-d/%Y` raises `ValueError` on every input and
  is modelled as always failing.
* Rows are modelled with Python `dict` semantics as produced by
  `csv.DictReader`: headers zipped with the values of the row, missing cells
  filled with `None` (here `Option.none`), duplicate headers resolved by
  later insertion winning.
* `validate_csv_file` consumes a stream of records in which an element may
  also be a `csv.Error` raised while reading that record; file I/O and the
  low-level CSV tokenizer are outside the embedding.
* Python `str.strip` / `str.lower` are modelled on the whitespace code
  points stripped by CPython and on the ASCII letter range (the inputs in
  the specification are ASCII).
-/

/-- Code points treated as whitespace by Python `str.strip()`. -/
def pySpaceCodes : List Nat :=
  [9, 10, 11, 12, 13, 28, 29, 30, 31, 32, 133, 160, 5760,
   8192, 8193, 8194, 8195, 8196, 8197, 8198, 8199, 8200, 8201, 8202,
   8232, 8233, 8239, 8287, 12288]

/-- Whether a character is Python whitespace. -/
def isPySpace (c : Char) : Bool := pySpaceCodes.contains c.toNat

/-- Python `str.strip()`: remove whitespace from both ends. -/
def pyStrip (s : String) : String :=
  String.mk (((s.data.dropWhile isPySpace).reverse.dropWhile isPySpace).reverse)

/-- Lowercase one character (ASCII fragment of Python `str.lower()`). -/
def pyLowerChar (c : Char) : Char :=
  if 65 ≤ c.toNat ∧ c.toNat ≤ 90 then Char.ofNat (c.toNat + 32) else c

/-- Python `str.lower()` on ASCII letters. -/
def pyLower (s : String) : String := String.mk (s.data.map pyLowerChar)

/-- Decimal digit test, `0`–`9`. -/
def isDigitCh (c : Char) : Bool := 48 ≤ c.toNat && c.toNat ≤ 57

/-- Numeric value of a decimal digit character. -/
def dval (c : Char) : Nat := c.toNat - 48

/--
Matches for the `%m` directive.  CPython `_strptime` compiles `%m` to the
regex alternation `1[0-2]|0[1-9]|[1-9]`; the result lists every
(value, remaining input) pair in the order the regex engine tries the
alternatives.
-/
def monthAlts : List Char → List (Nat × List Char)
  | [] => []
  | [a] => if isDigitCh a && a ≠ '0' then [(dval a, [])] else []
  | a :: b :: r =>
    (if a = '1' && (b = '0' || b = '1' || b = '2') then [(10 + dval b, r)] else []) ++
    (if a = '0' && isDigitCh b && b ≠ '0' then [(dval b, r)] else []) ++
    (if isDigitCh a && a ≠ '0' then [(dval a, b :: r)] else [])

/--
Matches for the `%d` directive, regex `3[01]|[12]\d|0[1-9]|[1-9]`,
alternatives in the order the regex engine tries them.
-/
def dayAlts : List Char → List (Nat × List Char)
  | [] => []
  | [a] => if isDigitCh a && a ≠ '0' then [(dval a, [])] else []
  | a :: b :: r =>
    (if a = '3' && (b = '0' || b = '1') then [(30 + dval b, r)] else []) ++
    (if (a = '1' || a = '2') && isDigitCh b then [(dval a * 10 + dval b, r)] else []) ++
    (if a = '0' && isDigitCh b && b ≠ '0' then [(dval b, r)] else []) ++
    (if isDigitCh a && a ≠ '0' then [(dval a, b :: r)] else [])

/-- The `%Y` directive, regex `\d\d\d\d`: exactly four digits. -/
def year4 : List Char → Option (Nat × List Char)
  | a :: b :: c :: d :: r =>
    if isDigitCh a && isDigitCh b && isDigitCh c && isDigitCh d then
      some (dval a * 1000 + dval b * 100 + dval c * 10 + dval d, r)
    else none
  | _ => none

/-- Consume one expected literal character. -/
def expectChar (c : Char) : List Char → Option (List Char)
  | x :: r => if x = c then some r else none
  | [] => none

/-- First alternative on which `f` succeeds (regex backtracking order). -/
def firstSuccess {α β : Type} (f : α → Option β) : List α → Option β
  | [] => none
  | x :: xs =>
    match f x with
    | some y => some y
    | none => firstSuccess f xs

/-- Parse the shape `%Y<sep>%m<sep>%d`, requiring the whole input to be
consumed; yields `(year, month, day)`. -/
def parseYMD (sep : Char) (cs : List Char) : Option (Nat × Nat × Nat) :=
  match year4 cs with
  | none => none
  | some (y, r1) =>
    match expectChar sep r1 with
    | none => none
    | some r2 =>
      firstSuccess (fun mr =>
        match expectChar sep mr.2 with
        | none => none
        | some r4 =>
          firstSuccess (fun dr => if dr.2 = [] then some (y, mr.1, dr.1) else none)
            (dayAlts r4))
        (monthAlts r2)

/-- Parse the shape `%m<sep>%d<sep>%Y`, requiring the whole input to be
consumed; yields `(year, month, day)`. -/
def parseMDY (sep : Char) (cs : List Char) : Option (Nat × Nat × Nat) :=
  firstSuccess (fun mr =>
    match expectChar sep mr.2 with
    | none => none
    | some r2 =>
      firstSuccess (fun dr =>
        match expectChar sep dr.2 with
        | none => none
        | some r4 =>
          match year4 r4 with
          | none => none
          | some (y, r5) => if r5 = [] then some (y, mr.1, dr.1) else none)
        (dayAlts r2))
    (monthAlts cs)

/-- A calendar date as carried by a Python `datetime` value. -/
structure PyDate where
  year : Nat
  month : Nat
  day : Nat
  deriving DecidableEq

/-- Gregorian leap-year rule used by Python `datetime`. -/
def isLeap (y : Nat) : Bool := y % 4 = 0 && (y % 100 ≠ 0 || y % 400 = 0)

/-- Days in a month, as in Python `datetime` (month is 1–12 here). -/
def daysInMonth (y m : Nat) : Nat :=
  if m = 2 then (if isLeap y then 29 else 28)
  else if m = 4 || m = 6 || m = 9 || m = 11 then 30 else 31

/-- Construct a `datetime` date: `ValueError` (here `none`) outside
`MINYEAR..MAXYEAR` or when the day exceeds the month length. -/
def mkPyDate (y m d : Nat) : Option PyDate :=
  if 1 ≤ y && y ≤ 9999 && d ≤ daysInMonth y m then some ⟨y, m, d⟩ else none

/-- The five entries of the Python `DATE_FORMATS` list, in order. -/
inductive Fmt
  | isoYmd
  | slashMdy
  | dashMdy
  | badDirective
  | slashMdy2
  deriving DecidableEq

/-- The `DATE_FORMATS` list from the source, in order: `%Y-%m-%d`,
`%m/%d/%Y`, `%m-%d-%Y`, `%-m/%-d/%Y`, and again `%m/%d/%Y`. -/
def DATE_FORMATS : List Fmt :=
  [Fmt.isoYmd, Fmt.slashMdy, Fmt.dashMdy, Fmt.badDirective, Fmt.slashMdy2]

/-- `datetime.strptime(s, fmt)` for the formats in `DATE_FORMATS`;
`none` models a raised `ValueError`.  `%-m/%-d/%Y` contains the directive
`%-`, which CPython `_strptime` rejects with
`ValueError: bad directive` on every input. -/
def strptime : Fmt → String → Option PyDate
  | Fmt.isoYmd, s =>
    match parseYMD '-' s.data with
    | some (y, m, d) => mkPyDate y m d
    | none => none
  | Fmt.slashMdy, s =>
    match parseMDY '/' s.data with
    | some (y, m, d) => mkPyDate y m d
    | none => none
  | Fmt.dashMdy, s =>
    match parseMDY '-' s.data with
    | some (y, m, d) => mkPyDate y m d
    | none => none
  | Fmt.badDirective, _ => none
  | Fmt.slashMdy2, s =>
    match parseMDY '/' s.data with
    | some (y, m, d) => mkPyDate y m d
    | none => none

/-- `validate_date` from the source: empty/whitespace-only input is valid
with no date; otherwise the trimmed string is tried against each entry of
`DATE_FORMATS` in order and the first success wins. -/
def validate_date (date_str : String) : Bool × Option PyDate :=
  if date_str = "" ∨ pyStrip date_str = "" then (true, none)
  else
    match firstSuccess (fun fmt => strptime fmt (pyStrip date_str)) DATE_FORMATS with
    | some dt => (true, some dt)
    | none => (false, none)

/-- `validate_date` restricted to the first three entries of
`DATE_FORMATS`; used to show the last two entries are dead. -/
def validate_date_first3 (date_str : String) : Bool × Option PyDate :=
  if date_str = "" ∨ pyStrip date_str = "" then (true, none)
  else
    match firstSuccess (fun fmt => strptime fmt (pyStrip date_str)) (DATE_FORMATS.take 3) with
    | some dt => (true, some dt)
    | none => (false, none)

/-- A row as produced by `csv.DictReader`: a Python `dict` from header
strings to cell values, where a value of `none` is Python `None`
(the `restval` filled in for a row shorter than the header). -/
abbrev Row : Type := List (String × Option String)

/-- Python `dict` insertion: replace the value of an existing key in
place, otherwise append the new binding. -/
def dictInsert (d : Row) (k : String) (v : Option String) : Row :=
  if (List.any d (fun p => p.1 = k)) then
    List.map (fun p => if p.1 = k then (k, v) else p) d
  else d ++ [(k, v)]

/-- Python `dict` lookup: `none` when the key is absent, otherwise the
stored value (which may itself be Python `None`). -/
def dictGet (d : Row) (k : String) : Option (Option String) :=
  Option.map (fun p => p.2) (List.find? (fun p => p.1 = k) d)

/-- One step of `csv.DictReader`: zip the header with the cells of the
row, then fill every header position beyond the length of the row with `None`
(`restval`); duplicate headers follow `dict` semantics (later wins).
Extra cells beyond the header go under the non-string `restkey` and are
unreachable by the string lookups the validator performs. -/
def buildRow (headers vals : List String) : Row :=
  List.foldl (fun d p => dictInsert d p.1 p.2) []
    (List.map (fun p => (p.1, some p.2)) (List.zip headers vals) ++
     List.map (fun h => (h, (none : Option String))) (List.drop vals.length headers))

/-- The `VALID_TYPES` vocabulary from the source. -/
def VALID_TYPES : List String := ["task", "milestone", "release", "meeting"]

/-- The error text for an out-of-vocabulary type value. -/
def typeErrMsg (idx : Nat) (t : String) : String :=
  "Row " ++ toString idx ++ ": Invalid type \x27" ++ t ++
  "\x27 (must be task/milestone/release/meeting)"

/-- The error text for a date value no format accepts. -/
def dateErrMsg (idx : Nat) (v fieldName : String) : String :=
  "Row " ++ toString idx ++ ": Invalid date format \x27" ++ v ++
  "\x27 in column \x27" ++ fieldName ++ "\x27"

/-- The message of the `AttributeError` raised by `None.strip()`. -/
def noneStripMsg : String :=
  "\x27NoneType\x27 object has no attribute \x27strip\x27"

/-- The nested lookup `row.get(type, row.get(Type, <empty>))` from the
source (keys quoted in the original): the value the
type check will call `.strip()` on; `none` is Python `None`. -/
def typeLookup (row : Row) : Option String :=
  match dictGet row "type" with
  | some v => v
  | none =>
    match dictGet row "Type" with
    | some v => v
    | none => some ""

/-- The type check of `validate_csv_file`: guarded by
`type in row or Type in row` (string keys); normalizes with
`.strip().lower()`
(raising `AttributeError` on `None`) and flags non-empty values outside
`VALID_TYPES`. -/
def typeCheck (row : Row) (idx : Nat) : Except String (List String) :=
  if (dictGet row "type").isSome ∨ (dictGet row "Type").isSome then
    match typeLookup row with
    | none => Except.error noneStripMsg
    | some v =>
      let t := pyLower (pyStrip v)
      if t ≠ "" ∧ t ∉ VALID_TYPES then Except.ok [typeErrMsg idx t]
      else Except.ok []
  else Except.ok []

/-- The `date_fields` alias groups from the source, in order. -/
def date_fields : List (List String) :=
  [["start_date", "Start Date", "Start", "start"],
   ["end_date", "End Date", "Finish", "end", "Due Date"],
   ["Date", "date"]]

/-- The date check of one alias group: the first alias present among the
keys of the row is consulted (and the scan stops there, `break`); a `None` or
empty/whitespace-only value is skipped; otherwise the value goes through
`validate_date` and a failure is reported against that alias. -/
def dateGroupErrors (row : Row) (idx : Nat) (group : List String) : List String :=
  match List.find? (fun f => (dictGet row f).isSome) group with
  | none => []
  | some fieldName =>
    match dictGet row fieldName with
    | none => []
    | some none => []
    | some (some v) =>
      if v ≠ "" ∧ pyStrip v ≠ "" then
        if (validate_date v).1 then [] else [dateErrMsg idx v fieldName]
      else []

/-- All checks the source performs on one data row, in source order:
the type check (whose `AttributeError` aborts the row and propagates),
then the three date groups. -/
def checkRow (row : Row) (idx : Nat) : Except String (List String) :=
  match typeCheck row idx with
  | Except.error e => Except.error e
  | Except.ok tErrs =>
    Except.ok (tErrs ++ List.flatten (List.map (dateGroupErrors row idx) date_fields))

/-- The error list of a successful row check (`[]` for an exception). -/
def okErrs : Except String (List String) → List String
  | Except.ok es => es
  | Except.error _ => []

/-- The row loop of `validate_csv_file` over the remaining record stream.
A stream element `Except.error e` is a `csv.Error` raised while reading
that record; it is caught at the file boundary as a `CSV parsing error`
message and the scan stops.  A blank record (`[]`) is skipped by
`DictReader` without being counted or numbered.  Otherwise the row is
counted, and an exception escaping the checks of the row is caught as an
`Unexpected error` message, again ending the scan. -/
def processRows (hdr : List String) :
    List (Except String (List String)) → Nat → Nat → List String →
    List String × Nat
  | [], _, cnt, errs => (errs, cnt)
  | Except.error e :: _, _, cnt, errs =>
    (errs ++ ["CSV parsing error: " ++ e], cnt)
  | Except.ok vals :: rest, idx, cnt, errs =>
    if vals = [] then processRows hdr rest idx cnt errs
    else
      match checkRow (buildRow hdr vals) idx with
      | Except.error e => (errs ++ ["Unexpected error: " ++ e], cnt + 1)
      | Except.ok rowErrs => processRows hdr rest (idx + 1) (cnt + 1) (errs ++ rowErrs)

/-- `validate_csv_file` from the source, over a stream of records.  The
first stream element plays the role of `reader.fieldnames` (an exhausted
or headerless file reports `No headers found`); the remaining elements
are scanned by `processRows` starting at row number 2 with `row_count`
0.  The returned triple is `(errors, warnings, row_count)` and
`warnings` is always empty. -/
def validate_csv_file (file : List (Except String (List String))) :
    List String × List String × Nat :=
  match file with
  | [] => (["No headers found"], [], 0)
  | Except.error e :: _ => (["CSV parsing error: " ++ e], [], 0)
  | Except.ok hdr :: rest =>
    if hdr = [] then (["No headers found"], [], 0)
    else
      match processRows hdr rest 2 0 [] with
      | (errs, cnt) => (errs, [], cnt)

/-- `validate_csv_file` on a file whose records all parse cleanly. -/
def validate_csv_records (records : List (List String)) :
    List String × List String × Nat :=
  validate_csv_file (List.map Except.ok records)

/-- The errors contributed by a run of clean, non-blank, exception-free
rows, numbering the first one `idx`. -/
def rowErrsAux (hdr : List String) : List (List String) → Nat → List String
  | [], _ => []
  | r :: rs, idx => okErrs (checkRow (buildRow hdr r) idx) ++ rowErrsAux hdr rs (idx + 1)

lemma firstSuccess_eq_none {α β : Type} (f : α → Option β) :
    ∀ l : List α, (∀ a ∈ l, f a = none) → firstSuccess f l = none := by
  intro l
  induction l with
  | nil => intro _; rfl
  | cons x xs ih =>
    intro h
    unfold firstSuccess
    rw [h x (by simp)]
    exact ih (fun a ha => h a (by simp [ha]))

lemma typeLookup_none_guard {row : Row} (h : typeLookup row = none) :
    (dictGet row "type").isSome ∨ (dictGet row "Type").isSome := by
  unfold typeLookup at h
  cases h1 : dictGet row "type" with
  | some v => exact Or.inl (by simp [h1])
  | none =>
    cases h2 : dictGet row "Type" with
    | some v => exact Or.inr (by simp [h2])
    | none => rw [h1, h2] at h; exact absurd h (by simp)

lemma checkRow_typeNone {row : Row} (idx : Nat) (h : typeLookup row = none) :
    checkRow row idx = Except.error noneStripMsg := by
  have ht : typeCheck row idx = Except.error noneStripMsg := by
    unfold typeCheck
    rw [if_pos (typeLookup_none_guard h), h]
  unfold checkRow
  rw [ht]

lemma validate_cons_ok (hdr : List String) (tail : List (Except String (List String))) :
    validate_csv_file (Except.ok hdr :: tail) =
      if hdr = [] then (["No headers found"], [], 0)
      else
        match processRows hdr tail 2 0 [] with
        | (errs, cnt) => (errs, [], cnt) := rfl

lemma processRows_error (hdr : List String) (e : String)
    (rest : List (Except String (List String))) (idx cnt : Nat) (errs : List String) :
    processRows hdr (Except.error e :: rest) idx cnt errs =
      (errs ++ ["CSV parsing error: " ++ e], cnt) := rfl

lemma processRows_exn (hdr vals : List String)
    (rest : List (Except String (List String))) (idx cnt : Nat) (errs : List String)
    (e : String) (hv : vals ≠ [])
    (h : checkRow (buildRow hdr vals) idx = Except.error e) :
    processRows hdr (Except.ok vals :: rest) idx cnt errs =
      (errs ++ ["Unexpected error: " ++ e], cnt + 1) := by
  unfold processRows
  rw [if_neg hv, h]

lemma rowErrsAux_eq_flatMap (hdr : List String) (rows : List (List String)) :
    ∀ idx : Nat, rowErrsAux hdr rows idx =
      List.flatMap (List.range rows.length)
        (fun i => okErrs (checkRow (buildRow hdr (rows.getD i [])) (idx + i))) := by
  induction rows with
  | nil => intro idx; simp [rowErrsAux]
  | cons r rs ih =>
    intro idx
    calc rowErrsAux hdr (r :: rs) idx
        = okErrs (checkRow (buildRow hdr r) idx) ++ rowErrsAux hdr rs (idx + 1) := rfl
      _ = okErrs (checkRow (buildRow hdr r) idx) ++
            List.flatMap (List.range rs.length)
              (fun i => okErrs (checkRow (buildRow hdr (rs.getD i [])) (idx + 1 + i))) := by
            rw [ih (idx + 1)]
      _ = List.flatMap (List.range (r :: rs).length)
            (fun i => okErrs (checkRow (buildRow hdr ((r :: rs).getD i [])) (idx + i))) := by
            rw [List.length_cons, List.range_succ_eq_map, List.flatMap_cons, List.flatMap_map]
            refine congrArg₂ (· ++ ·) (by simp) ?_
            refine congrArg _ (funext fun i => ?_)
            have h : idx + 1 + i = idx + (i + 1) := by omega
            simp [h, Nat.succ_eq_add_one]

lemma processRows_ok_cons (hdr vals : List String)
    (rest : List (Except String (List String))) (idx cnt : Nat) (errs es : List String)
    (hv : vals ≠ []) (h : checkRow (buildRow hdr vals) idx = Except.ok es) :
    processRows hdr (Except.ok vals :: rest) idx cnt errs =
      processRows hdr rest (idx + 1) (cnt + 1) (errs ++ es) := by
  conv_lhs => unfold processRows
  rw [if_neg hv, h]

lemma processRows_ok_eq (hdr : List String) (rows : List (List String)) :
    ∀ (tail : List (Except String (List String))) (idx cnt : Nat) (errs : List String),
    (∀ r ∈ rows, r ≠ []) →
    (∀ i, i < rows.length →
       ∃ es, checkRow (buildRow hdr (rows.getD i [])) (idx + i) = Except.ok es) →
    processRows hdr (List.map Except.ok rows ++ tail) idx cnt errs =
      processRows hdr tail (idx + rows.length) (cnt + rows.length)
        (errs ++ rowErrsAux hdr rows idx) := by
  induction rows with
  | nil => intro tail idx cnt errs _ _; simp [rowErrsAux]
  | cons r rs ih =>
    intro tail idx cnt errs hnb hok
    obtain ⟨es, hes⟩ := hok 0 (by simp)
    simp only [List.getD_cons_zero, Nat.add_zero] at hes
    have hr : r ≠ [] := hnb r (by simp)
    have step : processRows hdr (List.map Except.ok (r :: rs) ++ tail) idx cnt errs =
        processRows hdr (List.map Except.ok rs ++ tail) (idx + 1) (cnt + 1) (errs ++ es) := by
      simp only [List.map_cons, List.cons_append]
      exact processRows_ok_cons hdr r _ idx cnt errs es hr hes
    rw [step, ih tail (idx + 1) (cnt + 1) (errs ++ es)
        (fun r' h => hnb r' (by simp [h]))
        (fun i hi => by
          obtain ⟨es', hes'⟩ := hok (i + 1) (by simpa using Nat.succ_lt_succ hi)
          refine ⟨es', ?_⟩
          have h : idx + (i + 1) = idx + 1 + i := by omega
          simpa [h] using hes')]
    have h1 : idx + 1 + rs.length = idx + (r :: rs).length := by simp; omega
    have h2 : cnt + 1 + rs.length = cnt + (r :: rs).length := by simp; omega
    have h3 : (errs ++ es) ++ rowErrsAux hdr rs (idx + 1) =
        errs ++ rowErrsAux hdr (r :: rs) idx := by
      have : rowErrsAux hdr (r :: rs) idx =
          okErrs (checkRow (buildRow hdr r) idx) ++ rowErrsAux hdr rs (idx + 1) := rfl
      rw [this, hes]
      simp [okErrs, List.append_assoc]
    rw [h1, h2, h3]

lemma validate_ok_all (hdr : List String) (rows : List (List String))
    (hh : hdr ≠ []) (hnb : ∀ r ∈ rows, r ≠ [])
    (hok : ∀ i, i < rows.length →
       ∃ es, checkRow (buildRow hdr (rows.getD i [])) (2 + i) = Except.ok es) :
    validate_csv_records (hdr :: rows) = (rowErrsAux hdr rows 2, [], rows.length) := by
  unfold validate_csv_records
  rw [List.map_cons, validate_cons_ok, if_neg hh]
  have h := processRows_ok_eq hdr rows [] 2 0 [] hnb hok
  rw [List.append_nil] at h
  rw [h]
  simp [processRows]

/-- C1: every input whose trimmed form is non-empty and is accepted by no
entry of the `DATE_FORMATS` list is rejected by the Date Recognizer with
`(valid = false, parsedDate = none)`; in particular the inputs
`2025-13-40` and `not a date` are rejected. -/
theorem c1_recognizer_rejects_unmatched :
    (∀ s : String, pyStrip s ≠ "" →
      (∀ fmt ∈ DATE_FORMATS, strptime fmt (pyStrip s) = none) →
      validate_date s = (false, none))
    ∧ validate_date "2025-13-40" = (false, none)
    ∧ validate_date "not a date" = (false, none) := by
  refine ⟨?_, by decide, by decide⟩
  intro s hs hall
  have hne : ¬(s = "" ∨ pyStrip s = "") := by
    rintro (rfl | h)
    · exact hs (by decide)
    · exact hs h
  unfold validate_date
  rw [if_neg hne, firstSuccess_eq_none _ _ hall]

/-- C1 witness: the universally quantified part of
`c1_recognizer_rejects_unmatched` instantiated at the concrete
unmatched input `"xyz"`. -/
theorem c1_recognizer_rejects_unmatched_witness :
    pyStrip "xyz" ≠ "" ∧ validate_date "xyz" = (false, none) :=
  ⟨by decide, c1_recognizer_rejects_unmatched.1 "xyz" (by decide) (by decide)⟩

/-- C7: an input whose trimmed form is empty is valid with no parsed
date, and at the validator a present date-bearing alias holding a
whitespace-only value contributes no error for its group. -/
theorem c7_empty_date_is_valid :
    (∀ s : String, pyStrip s = "" → validate_date s = (true, none))
    ∧ (∀ (row : Row) (idx : Nat) (group : List String) (f v : String),
        List.find? (fun g => (dictGet row g).isSome) group = some f →
        dictGet row f = some (some v) → pyStrip v = "" →
        dateGroupErrors row idx group = []) := by
  constructor
  · intro s hs
    unfold validate_date
    rw [if_pos (Or.inr hs)]
  · intro row idx group f v hfind hval hstrip
    simp [dateGroupErrors, hfind, hval, hstrip]

/-- C7 witness: `c7_empty_date_is_valid` instantiated at the whitespace
input `" "` and a row whose `Date` column holds `" "`. -/
theorem c7_empty_date_is_valid_witness :
    validate_date " " = (true, none) ∧
    dateGroupErrors [("Date", some " ")] 2 ["Date", "date"] = [] :=
  ⟨c7_empty_date_is_valid.1 " " (by decide),
   c7_empty_date_is_valid.2 [("Date", some " ")] 2 ["Date", "date"] "Date" " "
     (by decide) (by decide) (by decide)⟩

/-- C8: the Date Recognizer accepts `2025-06-01` (ISO), `6/1/2025`
(unpadded slash), `06/01/2025` (padded slash) and `6-1-2025` (dash),
each with a parsed date. -/
theorem c8_accepts_all_four_formats :
    validate_date "2025-06-01" = (true, some ⟨2025, 6, 1⟩) ∧
    validate_date "6/1/2025" = (true, some ⟨2025, 6, 1⟩) ∧
    validate_date "06/01/2025" = (true, some ⟨2025, 6, 1⟩) ∧
    validate_date "6-1-2025" = (true, some ⟨2025, 6, 1⟩) :=
  ⟨by decide, by decide, by decide, by decide⟩

/-- C10: the fourth entry of `DATE_FORMATS` (the invalid directive
`%-m/%-d/%Y`) fails on every input, the fifth entry is semantically the
duplicate of the second, and `validate_date` coincides with the same
function restricted to the first three entries of `DATE_FORMATS`. -/
theorem c10_last_two_formats_dead :
    (∀ s : String, strptime Fmt.badDirective s = none)
    ∧ (∀ s : String, strptime Fmt.slashMdy2 s = strptime Fmt.slashMdy s)
    ∧ (∀ s : String, validate_date s = validate_date_first3 s) := by
  refine ⟨fun s => rfl, fun s => rfl, ?_⟩
  intro s
  unfold validate_date validate_date_first3
  by_cases h : s = "" ∨ pyStrip s = ""
  · rw [if_pos h, if_pos h]
  · rw [if_neg h, if_neg h]
    have htake : DATE_FORMATS.take 3 = [Fmt.isoYmd, Fmt.slashMdy, Fmt.dashMdy] := rfl
    have h25 : strptime Fmt.slashMdy2 (pyStrip s) = strptime Fmt.slashMdy (pyStrip s) := rfl
    have hbad : strptime Fmt.badDirective (pyStrip s) = none := rfl
    rw [htake]
    cases h1 : strptime Fmt.isoYmd (pyStrip s) <;>
      cases h2 : strptime Fmt.slashMdy (pyStrip s) <;>
        cases h3 : strptime Fmt.dashMdy (pyStrip s) <;>
          simp [DATE_FORMATS, firstSuccess, h1, h2, h3, h25, hbad]

/-- C2: within one alias group only the first alias present among the
headers of the row is consulted (the outcome of the group depends only
on the value stored at that alias), and when that first-present alias holds a missing
(`None`) or empty/whitespace value the group contributes no error and no
later alias is consulted. -/
theorem c2_first_alias_only :
    (∀ (row row2 : Row) (idx : Nat) (group : List String) (f : String),
        List.find? (fun g => (dictGet row g).isSome) group = some f →
        List.find? (fun g => (dictGet row2 g).isSome) group = some f →
        dictGet row f = dictGet row2 f →
        dateGroupErrors row idx group = dateGroupErrors row2 idx group)
    ∧ (∀ (row : Row) (idx : Nat) (group : List String) (f : String),
        List.find? (fun g => (dictGet row g).isSome) group = some f →
        (dictGet row f = some none ∨
         ∃ v, dictGet row f = some (some v) ∧ pyStrip v = "") →
        dateGroupErrors row idx group = []) := by
  constructor
  · intro row row2 idx group f h1 h2 hv
    unfold dateGroupErrors
    rw [h1, h2]
    simp only [hv]
  · intro row idx group f h1 hv
    rcases hv with h | ⟨v, hv, hs⟩
    · simp [dateGroupErrors, h1, h]
    · simp [dateGroupErrors, h1, hv, hs]

/-- C2 witness: `c2_first_alias_only` applied to a row whose first
start-date alias is present but empty while a later alias of the same
group holds garbage: no error is emitted. -/
theorem c2_first_alias_only_witness :
    List.find?
        (fun g => (dictGet [("start_date", some ""), ("Start Date", some "garbage")] g).isSome)
        ["start_date", "Start Date", "Start", "start"] = some "start_date" ∧
    dateGroupErrors [("start_date", some ""), ("Start Date", some "garbage")] 2
        ["start_date", "Start Date", "Start", "start"] = [] :=
  ⟨by decide,
   c2_first_alias_only.2 [("start_date", some ""), ("Start Date", some "garbage")] 2
     ["start_date", "Start Date", "Start", "start"] "start_date" (by decide)
     (Or.inr ⟨"", by decide, by decide⟩)⟩

/-- C4: when the consulted (first-present) alias of a group holds a
non-empty trimmed value rejected by the Date Recognizer, the group emits
exactly the one error of the exact source wording naming that alias and
the raw value; concretely a row with an invalid `start_date` and a valid
`end_date` is flagged only for `start_date`, and a type error in the
same row is still emitted alongside the date error. -/
theorem c4_date_error_exact :
    (∀ (row : Row) (idx : Nat) (group : List String) (f v : String),
        List.find? (fun g => (dictGet row g).isSome) group = some f →
        dictGet row f = some (some v) →
        pyStrip v ≠ "" →
        (validate_date v).1 = false →
        dateGroupErrors row idx group = [dateErrMsg idx v f])
    ∧ validate_csv_records [["start_date", "end_date"], ["13/45/2025", "2025-06-05"]] =
        ([dateErrMsg 2 "13/45/2025" "start_date"], [], 1)
    ∧ validate_csv_records [["type", "start_date"], ["sprint", "13/45/2025"]] =
        ([typeErrMsg 2 "sprint", dateErrMsg 2 "13/45/2025" "start_date"], [], 1) := by
  refine ⟨?_, by decide, by decide⟩
  intro row idx group f v hfind hval hs hbad
  have hv0 : v ≠ "" := fun h => hs (by rw [h]; decide)
  simp [dateGroupErrors, hfind, hval, hv0, hs, hbad]

/-- C4 witness: `c4_date_error_exact` applied to a concrete row whose
`start_date` holds the rejected value `13/45/2025`. -/
theorem c4_date_error_exact_witness :
    (validate_date "13/45/2025").1 = false ∧
    dateGroupErrors [("start_date", some "13/45/2025")] 2
        ["start_date", "Start Date", "Start", "start"] =
      [dateErrMsg 2 "13/45/2025" "start_date"] :=
  ⟨by decide,
   c4_date_error_exact.1 [("start_date", some "13/45/2025")] 2
     ["start_date", "Start Date", "Start", "start"] "start_date" "13/45/2025"
     (by decide) (by decide) (by decide) (by decide)⟩

/-- C3: when `type` or `Type` is among the keys of the row and the consulted
value is a string `v`, the type check emits exactly the error
`Row <n>: Invalid type <t> (must be task/milestone/release/meeting)`
(with `<t>` singly quoted as in `typeErrMsg`)
precisely when the trimmed lowercased `t` is non-empty and outside
`VALID_TYPES`; at file level, the errors of a clean file are those of
each data row checked with row number `2 + i` for the `i`-th data row
(the header is line 1); and `Task` in a `type` column yields no error
while `sprint` yields exactly the row-2 type error. -/
theorem c3_type_check :
    (∀ (row : Row) (idx : Nat) (v : String),
        ((dictGet row "type").isSome ∨ (dictGet row "Type").isSome) →
        typeLookup row = some v →
        typeCheck row idx =
          Except.ok
            (if pyLower (pyStrip v) ≠ "" ∧ pyLower (pyStrip v) ∉ VALID_TYPES
             then [typeErrMsg idx (pyLower (pyStrip v))] else []))
    ∧ (∀ (hdr : List String) (rows : List (List String)),
        hdr ≠ [] →
        (∀ r ∈ rows, r ≠ []) →
        (∀ i, i < rows.length →
          ∃ es, checkRow (buildRow hdr (rows.getD i [])) (2 + i) = Except.ok es) →
        validate_csv_records (hdr :: rows) =
          (List.flatMap (List.range rows.length)
             (fun i => okErrs (checkRow (buildRow hdr (rows.getD i [])) (2 + i))),
           [], rows.length))
    ∧ validate_csv_records [["type"], ["Task"]] = ([], [], 1)
    ∧ validate_csv_records [["type"], ["sprint"]] = ([typeErrMsg 2 "sprint"], [], 1) := by
  refine ⟨?_, ?_, by decide, by decide⟩
  · intro row idx v hguard hv
    unfold typeCheck
    rw [if_pos hguard, hv]
    by_cases hc : pyLower (pyStrip v) ≠ "" ∧ pyLower (pyStrip v) ∉ VALID_TYPES
    · simp [hc]
    · simp [hc]
  · intro hdr rows hh hnb hok
    rw [validate_ok_all hdr rows hh hnb hok, rowErrsAux_eq_flatMap]

/-- C3 witness: the file-level part of `c3_type_check` applied to a
concrete one-row file whose `Type` value is `MILESTONE` (case-insensitive
acceptance, no error, row count 1). -/
theorem c3_type_check_witness :
    (["Type", "start_date"] : List String) ≠ [] ∧
    validate_csv_records [["Type", "start_date"], ["MILESTONE", "2025-06-01"]] = ([], [], 1) := by
  refine ⟨by decide, ?_⟩
  have h := c3_type_check.2.1 ["Type", "start_date"] [["MILESTONE", "2025-06-01"]]
    (by decide) (by decide)
    (fun i hi => by
      have hi0 : i = 0 := by simp at hi; exact hi
      subst hi0
      exact ⟨[], rfl⟩)
  rw [h]
  decide

/-- C9: a file with no header record at all (the empty file) and a file
whose first record is the empty record both report exactly
`No headers found` with row count 0, whatever follows; a file with a
non-empty header and no data rows reports no errors and row count 0. -/
theorem c9_no_headers :
    validate_csv_records [] = (["No headers found"], [], 0)
    ∧ (∀ rest : List (List String),
        validate_csv_records ([] :: rest) = (["No headers found"], [], 0))
    ∧ (∀ hdr : List String, hdr ≠ [] → validate_csv_records [hdr] = ([], [], 0)) := by
  refine ⟨rfl, fun rest => rfl, ?_⟩
  intro hdr hh
  unfold validate_csv_records
  rw [List.map_cons, List.map_nil, validate_cons_ok, if_neg hh]
  rfl

/-- C9 witness: the header-only part of `c9_no_headers` applied to the
concrete header `["a"]`. -/
theorem c9_no_headers_witness :
    (["a"] : List String) ≠ [] ∧ validate_csv_records [["a"]] = ([], [], 0) :=
  ⟨by decide, c9_no_headers.2.2 ["a"] (by decide)⟩

/-- C5: the validator converts failures into reported messages instead of
propagating them.  If a `csv.Error` is raised while reading a record
after a run of clean rows, the result is the errors of the clean rows plus the
single file-level `CSV parsing error` message, the remaining stream is
never consulted, and the row count is the number of rows counted before
the abort.  If the checks of a row raise (any unexpected exception `e`),
the result likewise ends with the single `Unexpected error` message, the
remaining stream is ignored, and the row count includes the offending
row (it is incremented before the checks run). -/
theorem c5_exceptions_contained :
    (∀ (hdr : List String) (rows : List (List String)) (e : String)
        (rest : List (Except String (List String))),
        hdr ≠ [] →
        (∀ r ∈ rows, r ≠ []) →
        (∀ i, i < rows.length →
          ∃ es, checkRow (buildRow hdr (rows.getD i [])) (2 + i) = Except.ok es) →
        validate_csv_file
            (Except.ok hdr :: (List.map Except.ok rows ++ Except.error e :: rest)) =
          (rowErrsAux hdr rows 2 ++ ["CSV parsing error: " ++ e], [], rows.length))
    ∧ (∀ (hdr : List String) (rows : List (List String)) (r : List String) (e : String)
        (rest : List (Except String (List String))),
        hdr ≠ [] →
        (∀ x ∈ rows, x ≠ []) →
        r ≠ [] →
        (∀ i, i < rows.length →
          ∃ es, checkRow (buildRow hdr (rows.getD i [])) (2 + i) = Except.ok es) →
        checkRow (buildRow hdr r) (2 + rows.length) = Except.error e →
        validate_csv_file
            (Except.ok hdr :: (List.map Except.ok rows ++ Except.ok r :: rest)) =
          (rowErrsAux hdr rows 2 ++ ["Unexpected error: " ++ e], [], rows.length + 1)) := by
  constructor
  · intro hdr rows e rest hh hnb hok
    rw [validate_cons_ok, if_neg hh, processRows_ok_eq hdr rows _ 2 0 [] hnb hok,
      processRows_error]
    simp
  · intro hdr rows r e rest hh hnb hr hok hfail
    rw [validate_cons_ok, if_neg hh, processRows_ok_eq hdr rows _ 2 0 [] hnb hok,
      processRows_exn hdr r rest _ _ _ e hr (by simpa [Nat.add_comm] using hfail)]
    simp [Nat.add_comm]

/-- C5 witness: the parse-failure part of `c5_exceptions_contained`
applied to a file whose second record raises `csv.Error` with message
`boom`: one file-level error, row count 0. -/
theorem c5_exceptions_contained_witness :
    (["a"] : List String) ≠ [] ∧
    validate_csv_file [Except.ok ["a"], Except.error "boom"] =
      (["CSV parsing error: boom"], [], 0) := by
  refine ⟨by decide, ?_⟩
  have h := c5_exceptions_contained.1 ["a"] [] "boom" [] (by decide)
    (fun r hr => absurd hr (List.not_mem_nil r))
    (fun i hi => absurd hi (Nat.not_lt_zero i))
  simpa [rowErrsAux] using h

/-- C6: a consulted type value that is Python `None` (the fill value of
a data row shorter than the header) makes the checks of that row raise
`AttributeError`; at file level the scan stops there, the only
additional message is the file-level `Unexpected error:` one (no
row-scoped type error), later records are never consulted, and the row
count includes the offending row. -/
theorem c6_short_row_type_none :
    (∀ (row : Row) (idx : Nat), typeLookup row = none →
        checkRow row idx = Except.error noneStripMsg)
    ∧ (∀ (hdr : List String) (rows : List (List String)) (r : List String)
        (rest : List (List String)),
        hdr ≠ [] →
        (∀ x ∈ rows, x ≠ []) →
        r ≠ [] →
        (∀ i, i < rows.length →
          ∃ es, checkRow (buildRow hdr (rows.getD i [])) (2 + i) = Except.ok es) →
        typeLookup (buildRow hdr r) = none →
        validate_csv_records (hdr :: (rows ++ r :: rest)) =
          (rowErrsAux hdr rows 2 ++ ["Unexpected error: " ++ noneStripMsg], [],
           rows.length + 1)) := by
  constructor
  · intro row idx h
    exact checkRow_typeNone idx h
  · intro hdr rows r rest hh hnb hr hok hnone
    unfold validate_csv_records
    rw [List.map_cons, List.map_append, List.map_cons]
    rw [validate_cons_ok, if_neg hh, processRows_ok_eq hdr rows _ 2 0 [] hnb hok,
      processRows_exn hdr r _ _ _ _ noneStripMsg hr
        (checkRow_typeNone (2 + rows.length) hnone)]
    simp [Nat.add_comm]

/-- C6 witness: `c6_short_row_type_none` applied to the file with header
`a,type` and the single short data row `x`: the `type` column carries no
value, so the run aborts with the one `Unexpected error` message and row
count 1. -/
theorem c6_short_row_type_none_witness :
    typeLookup (buildRow ["a", "type"] ["x"]) = none ∧
    validate_csv_records [["a", "type"], ["x"]] =
      (["Unexpected error: " ++ noneStripMsg], [], 1) := by
  refine ⟨by decide, ?_⟩
  have h := c6_short_row_type_none.2 ["a", "type"] [] ["x"] [] (by decide)
    (fun x hx => absurd hx (List.not_mem_nil x))
    (by decide)
    (fun i hi => absurd hi (Nat.not_lt_zero i))
    (by decide)
  simpa [rowErrsAux] using h
